import Mathlib

/-!
Shallow embedding of the VelocityInsight tire-degradation / race-strategy core:

* `TireDeg`  — `backend/app/ml/tire_degradation.py`
  (`TireDegradationModel.calculate_lap_degradation`, `fit_degradation_model`)
* `PitStrat` — `backend/app/ml/pit_strategy.py`
  (`PitStrategyOptimizer.calculate_pit_window`, `_evaluate_pit_scenario`,
  `_evaluate_no_pit_scenario`, `calculate_undercut_opportunity`,
  `simulate_race_to_finish`)
* `RaceSim`  — `backend/app/ml/race_simulator.py`
  (`TireCharacteristics.get_compound_characteristics`,
  `RaceSimulator._calculate_tire_degradation`, `_calculate_lap_time`,
  `simulate_race`)

Python float arithmetic is modelled by exact arithmetic: rationals wherever the
source only adds, multiplies and divides, and real numbers where the source
takes the fractional power `** 1.5`.  Sequences of per-lap data are Lean lists;
pandas group/filter/sort operations on a single vehicle's series become list
operations on `(lap_number, lap_time)` pairs.
-/

/-- Python's `abs` / `np.abs` on exact rationals, written as the sign branch
so that it evaluates by unfolding (`absQ_eq_abs` links it to `|·|`). -/
def absQ (x : ℚ) : ℚ := if x < 0 then -x else x

namespace TireDeg

/-- Embeds `np.median`: mean of the two middle elements of the sorted list when the
length is even, the middle element when it is odd.  (The source never takes a
median of an empty array on the paths embedded here; the `getD` default is
unreachable for nonempty input.) -/
def median (l : List ℚ) : ℚ :=
  let s := l.insertionSort (· ≤ ·)
  let n := s.length
  if n % 2 = 1 then s.getD (n / 2) 0
  else (s.getD (n / 2 - 1) 0 + s.getD (n / 2) 0) / 2

/-- The outlier filter of `calculate_lap_degradation` (tire_degradation.py,
lines 163–180): keep a lap iff its time lies within
`[max 80 (median − 3·MAD), min 130 (median + 3·MAD)]`, where the median and the
median absolute deviation are taken over all lap times of the vehicle.  The
numpy boolean mask is applied to lap numbers and lap times in tandem, hence the
filter acts on the `(lap_number, lap_time)` pairs. -/
def cleanAccepted (pairs : List (ℕ × ℚ)) : List (ℕ × ℚ) :=
  let times := pairs.map Prod.snd
  let med := median times
  let mad := median (times.map fun t => absQ (t - med))
  pairs.filter fun p =>
    decide (max 80 (med - 3 * mad) ≤ p.2) && decide (p.2 ≤ min 130 (med + 3 * mad))

/-- Baseline lap time (tire_degradation.py, lines 185–187): mean of the three
smallest accepted lap times (`np.sort(clean_lap_times)[:3]`). -/
def baselineOf (clean : List (ℕ × ℚ)) : ℚ :=
  let s := (clean.map Prod.snd).insertionSort (· ≤ ·)
  (s.getD 0 0 + s.getD 1 0 + s.getD 2 0) / 3

/-- One row of the DataFrame returned by `calculate_lap_degradation`
(tire_degradation.py, lines 204–215), for a fixed vehicle. -/
structure DegradationSample where
  lap_number : ℕ
  stint_number : ℕ
  tire_age : ℕ
  lap_time : ℚ
  baseline_time : ℚ
  time_delta : ℚ
  degradation_pct : ℚ
  cumulative_laps : ℕ
  is_pit_lap : Bool
deriving DecidableEq, Repr, Inhabited

/-- The tire-age / stint bookkeeping loop of `calculate_lap_degradation`
(tire_degradation.py, lines 192–215): state `(tire_age, stint_number, i)`
starts at `(0, 1, 0)`; a lap whose number is in the pit-stop list sets
`tire_age := 1` and increments `stint_number`, any other lap increments
`tire_age`; every accepted lap emits one sample. -/
def bookkeep (pit : List ℕ) (baseline : ℚ) :
    List (ℕ × ℚ) → ℕ → ℕ → ℕ → List DegradationSample
  | [], _, _, _ => []
  | (ln, lt) :: rest, tire_age, stint, idx =>
    let isPit : Bool := decide (ln ∈ pit)
    let age := if isPit then 1 else tire_age + 1
    let st := if isPit then stint + 1 else stint
    { lap_number := ln, stint_number := st, tire_age := age, lap_time := lt,
      baseline_time := baseline, time_delta := lt - baseline,
      degradation_pct := (lt - baseline) / baseline * 100,
      cumulative_laps := idx + 1, is_pit_lap := isPit }
      :: bookkeep pit baseline rest age st (idx + 1)

/-- Embeds `TireDegradationModel.calculate_lap_degradation` for a single vehicle
(tire_degradation.py, lines 146–215), starting from the per-lap
`(lap_number, lap_time)` pairs (the source derives the lap times as timestamp
deltas, producing one pair fewer than there are records; the guards
`len(group) < 5` and `len(lap_times) < 5` combine to skipping the vehicle when
there are fewer than 5 pairs).  A skipped vehicle contributes no rows. -/
def calculate_lap_degradation (pairs : List (ℕ × ℚ)) (pit : List ℕ) :
    List DegradationSample :=
  if pairs.length < 5 then []
  else
    let clean := cleanAccepted pairs
    if clean.length < 5 then []
    else bookkeep pit (baselineOf clean) clean 0 1 0

/-- Mean `degradation_pct` of the samples at one tire age
(`degradation_df.groupby('tire_age')['degradation_pct'].mean()`). -/
def meanDegAt (df : List DegradationSample) (age : ℕ) : ℚ :=
  let v := (df.filter fun s => s.tire_age == age).map (·.degradation_pct)
  v.sum / v.length

/-- Ordinary-least-squares slope with intercept
(`sklearn.LinearRegression` on 1-dimensional data). -/
def olsSlope (pts : List (ℚ × ℚ)) : ℚ :=
  let n : ℚ := pts.length
  let sx := (pts.map Prod.fst).sum
  let sy := (pts.map Prod.snd).sum
  let sxy := (pts.map fun p => p.1 * p.2).sum
  let sxx := (pts.map fun p => p.1 * p.1).sum
  (n * sxy - sx * sy) / (n * sxx - sx * sx)

/-- The fields of `fit_degradation_model`'s return value that the spec's claims
refer to (tire_degradation.py, lines 250–273).  The degree-2 polynomial model
and its `mae` / `r2_score` training metrics are not referenced by any claim and
are not embedded. -/
structure FitSummary where
  avg_degradation_rate_per_lap : ℚ
  baseline_laptime : ℚ
  samples : ℕ
deriving DecidableEq, Repr

/-- Embeds `TireDegradationModel.fit_degradation_model` (tire_degradation.py, lines
219–273): raises `ValueError("No degradation data available for model
fitting")` when the degradation DataFrame is empty (line 229–230); otherwise
the per-lap degradation rate is the OLS slope over the per-tire-age mean
degradations (pandas groups are keyed by ascending distinct tire ages), with
the default `0.1` when fewer than two distinct tire ages exist, and the
baseline is the mean of the `baseline_time` column. -/
def fit_degradation_model (df : List DegradationSample) :
    Except String FitSummary :=
  if df.isEmpty then
    .error "No degradation data available for model fitting"
  else
    let ages := ((df.map (·.tire_age)).dedup).insertionSort (· ≤ ·)
    let rate :=
      if 1 < ages.length then
        olsSlope (ages.map fun a => ((Nat.cast a : ℚ), meanDegAt df a))
      else (1 : ℚ) / 10
    .ok { avg_degradation_rate_per_lap := rate
          baseline_laptime := (df.map (·.baseline_time)).sum / (df.length : ℚ)
          samples := df.length }

end TireDeg

namespace PitStrat

/-- Embeds `PitStrategyOptimizer.typical_pit_time` (pit_strategy.py, line 28). -/
def typical_pit_time : ℚ := 45

/-- Embeds `PitStopScenario` (pit_strategy.py, lines 8–18). -/
structure PitStopScenario where
  pit_lap : ℕ
  time_in_pit : ℚ
  tire_age_at_pit : ℕ
  projected_finish_time : ℚ
  total_time_loss : ℚ
  total_time_gain : ℚ
  net_advantage : ℚ
  recommendation_score : ℚ
deriving DecidableEq, Repr

/-- Embeds `PitStrategyOptimizer._evaluate_pit_scenario` (pit_strategy.py, lines
122–184).  Call sites guarantee `current_lap < pit_lap ≤ total_race_laps`, so
the natural-number subtractions below agree with Python's integer arithmetic.
The loop `for lap in range(current_lap+1, pit_lap+1)` becomes a sum over
`k < pit_lap − current_lap` at `lap = current_lap + k + 1`, and
`for lap in range(pit_lap+1, total_race_laps+1)` a sum over
`k < total_race_laps − pit_lap` at `lap = pit_lap + k + 1`. -/
def evaluate_pit_scenario (current_lap pit_lap total_race_laps
    current_tire_age : ℕ) (degradation_rate baseline_laptime : ℚ) :
    PitStopScenario :=
  let time_loss_before_pit :=
    ((List.range (pit_lap - current_lap)).map fun (k : ℕ) =>
      baseline_laptime *
        (degradation_rate * ((current_tire_age + k + 1 : ℕ) : ℚ) / 100)).sum
  let time_gain_after_pit :=
    ((List.range (total_race_laps - pit_lap)).map fun (k : ℕ) =>
      let fresh_tire_age : ℚ := (k : ℚ) + 1
      let old_lap_delta : ℕ := pit_lap + k + 1 - current_lap
      let old_tire_age : ℚ := (current_tire_age : ℚ) + (old_lap_delta : ℚ)
      baseline_laptime * (1 + degradation_rate * old_tire_age / 100) -
        baseline_laptime * (1 + degradation_rate * fresh_tire_age / 100)).sum
  let total_time_loss := typical_pit_time + time_loss_before_pit
  let net_advantage := time_gain_after_pit - total_time_loss
  let score := max 0 (min 100 (50 + net_advantage / 5))
  { pit_lap := pit_lap
    time_in_pit := typical_pit_time
    tire_age_at_pit := current_tire_age + (pit_lap - current_lap)
    projected_finish_time := 0
    total_time_loss := total_time_loss
    total_time_gain := time_gain_after_pit
    net_advantage := net_advantage
    recommendation_score := score }

/-- Embeds `PitStrategyOptimizer._evaluate_no_pit_scenario` (pit_strategy.py, lines
186–237).  The cliff penalty `((tire_age - 15) ** 1.5) * 0.2` raises an integer
to the real power `1.5`; the embedding abstracts that power as the `pow32`
argument (intended value `m ^ (3/2)`, irrational for most `m`), so that the
module stays inside exact rational arithmetic.  Every theorem below that
involves this function is proved for every `pow32`, hence in particular for the
source's kernel. -/
def evaluate_no_pit_scenario (pow32 : ℕ → ℚ) (current_lap total_race_laps
    current_tire_age : ℕ) (degradation_rate baseline_laptime : ℚ) :
    PitStopScenario :=
  let remaining_laps := total_race_laps - current_lap
  let time_loss :=
    ((List.range remaining_laps).map fun (k : ℕ) =>
      let tire_age := current_tire_age + k + 1
      let base_degradation := degradation_rate * (tire_age : ℚ) +
        (if 15 < tire_age then pow32 (tire_age - 15) * (2 / 10) else 0)
      baseline_laptime * (base_degradation / 100)).sum
  let net_advantage := -time_loss
  let score :=
    if remaining_laps ≤ 5 ∧ absQ degradation_rate < 1 / 2 then
      max 0 (min 100 (60 - time_loss / 2))
    else
      max 0 (min 100 (20 - time_loss / 3))
  { pit_lap := 0
    time_in_pit := 0
    tire_age_at_pit := current_tire_age + remaining_laps
    projected_finish_time := 0
    total_time_loss := time_loss
    total_time_gain := 0
    net_advantage := net_advantage
    recommendation_score := score }

/-- The `scenarios` list built by `calculate_pit_window` before ranking
(pit_strategy.py, lines 62–89): one pit candidate per lap in
`range(current_lap + 1, current_lap + min(15, remaining_laps) + 1)`, then the
no-pit scenario appended iff `remaining_laps <= 8 and current_tire_age < 12`. -/
def evaluated_scenarios (pow32 : ℕ → ℚ) (current_lap total_race_laps
    current_tire_age : ℕ) (degradation_rate baseline_laptime : ℚ) :
    List PitStopScenario :=
  let remaining_laps := total_race_laps - current_lap
  let max_lookahead := min 15 remaining_laps
  ((List.range max_lookahead).map fun (k : ℕ) =>
    evaluate_pit_scenario current_lap (current_lap + k + 1) total_race_laps
      current_tire_age degradation_rate baseline_laptime) ++
  (if remaining_laps ≤ 8 ∧ current_tire_age < 12 then
    [evaluate_no_pit_scenario pow32 current_lap total_race_laps
      current_tire_age degradation_rate baseline_laptime]
  else [])

/-- Python's `scenarios.sort(key=lambda x: x.net_advantage, reverse=True)`:
stable sort, descending in `net_advantage`.  `List.insertionSort` with the
total relation `t.net_advantage ≤ s.net_advantage` places an element before
exactly the later elements with strictly smaller key, which is the same stable
descending order. -/
def sortScenariosDesc (l : List PitStopScenario) : List PitStopScenario :=
  l.insertionSort fun s t => t.net_advantage ≤ s.net_advantage

/-- Embeds `PitStrategyOptimizer._generate_recommendation` (pit_strategy.py, lines
239–261); the optional position/gap arguments are unused by the source. -/
def generate_recommendation (optimal : PitStopScenario) (current_lap : ℕ) :
    String :=
  if optimal.pit_lap = 0 then "NO_PIT_RECOMMENDED"
  else
    let laps_until_pit := optimal.pit_lap - current_lap
    if laps_until_pit ≤ 1 then "PIT_NOW"
    else if laps_until_pit ≤ 3 then
      "PIT_IN_" ++ toString laps_until_pit ++ "_LAPS"
    else if laps_until_pit ≤ 5 then "PIT_SOON"
    else "PIT_WINDOW_LAP_" ++ toString optimal.pit_lap

/-- The dictionary returned by `calculate_pit_window`
(pit_strategy.py, lines 104–120); `alternative_scenarios` keeps
`(pit_lap, net_advantage, score)` per reported scenario. -/
structure PitWindowResult where
  optimal_pit_lap : ℕ
  laps_until_pit : ℕ
  projected_time_loss : ℚ
  projected_time_gain : ℚ
  net_advantage : ℚ
  recommendation : String
  confidence_score : ℚ
  alternative_scenarios : List (ℕ × ℚ × ℚ)
deriving DecidableEq, Repr

/-- Embeds `PitStrategyOptimizer.calculate_pit_window` (pit_strategy.py, lines
33–120).  `optimal_scenario = scenarios[0]` raises `IndexError` on an empty
scenario list; the embedding returns `none` exactly there. -/
def calculate_pit_window (pow32 : ℕ → ℚ) (current_lap total_race_laps
    current_tire_age : ℕ) (degradation_rate baseline_laptime : ℚ) :
    Option PitWindowResult :=
  let scenarios := evaluated_scenarios pow32 current_lap total_race_laps
    current_tire_age degradation_rate baseline_laptime
  match sortScenariosDesc scenarios with
  | [] => none
  | optimal :: rest =>
    some { optimal_pit_lap := optimal.pit_lap
           laps_until_pit :=
             if 0 < optimal.pit_lap then optimal.pit_lap - current_lap else 0
           projected_time_loss := optimal.total_time_loss
           projected_time_gain := optimal.total_time_gain
           net_advantage := optimal.net_advantage
           recommendation := generate_recommendation optimal current_lap
           confidence_score := optimal.recommendation_score
           alternative_scenarios :=
             ((optimal :: rest).take 3).map fun s =>
               (s.pit_lap, s.net_advantage, s.recommendation_score) }

/-- The dictionary returned by `calculate_undercut_opportunity`
(pit_strategy.py, lines 313–319). -/
structure UndercutResult where
  undercut_viable : Bool
  time_gain_potential : ℚ
  gap_required : ℚ
  advantage_margin : ℚ
  recommendation : String
deriving DecidableEq, Repr

/-- Embeds `PitStrategyOptimizer.calculate_undercut_opportunity` (pit_strategy.py,
lines 263–319).  Note that `own_tire_age` (and `current_lap`) are accepted but
never read by the source body, and that the `UNDERCUT_NOW` threshold compares
against the *signed* `gap_to_competitor + 2` while viability compares against
`abs(gap_to_competitor)`. -/
def calculate_undercut_opportunity (_current_lap _own_tire_age
    competitor_tire_age : ℕ) (gap_to_competitor degradation_rate
    baseline_laptime : ℚ) : UndercutResult :=
  let out_lap_time := baseline_laptime + typical_pit_time / 2
  let competitor_degradation :=
    degradation_rate * ((competitor_tire_age : ℚ) + 1)
  let competitor_in_lap_time :=
    baseline_laptime * (1 + competitor_degradation / 100)
  let undercut_gain := competitor_in_lap_time - out_lap_time
  let fresh_tire_advantage :=
    ((List.range 3).map fun (k : ℕ) =>
      let lap_offset : ℚ := (k : ℚ) + 1
      let fresh_deg := degradation_rate * lap_offset
      let old_deg := degradation_rate * ((competitor_tire_age : ℚ) + lap_offset)
      baseline_laptime * (1 + old_deg / 100) -
        baseline_laptime * (1 + fresh_deg / 100)).sum
  let total_undercut_potential := undercut_gain + fresh_tire_advantage
  let viable : Bool :=
    decide (absQ gap_to_competitor < total_undercut_potential)
  { undercut_viable := viable
    time_gain_potential := total_undercut_potential
    gap_required := absQ gap_to_competitor
    advantage_margin := total_undercut_potential - absQ gap_to_competitor
    recommendation :=
      if viable ∧ gap_to_competitor + 2 < total_undercut_potential then
        "UNDERCUT_NOW"
      else "MONITOR" }

/-- State of the lap loop in `simulate_race_to_finish`. -/
structure SimToFinishState where
  tire_age : ℕ
  total_time : ℚ
  lap_times : List ℚ
deriving DecidableEq, Repr

/-- One iteration of the lap loop of `simulate_race_to_finish`
(pit_strategy.py, lines 350–364): on a pit lap add the pit time and reset the
tire age to 0, then compute the lap time at the *current* tire age, and only
afterwards increment the tire age. -/
def simToFinishStep (pit_laps : List ℕ) (degradation_rate baseline_laptime : ℚ)
    (st : SimToFinishState) (lap : ℕ) : SimToFinishState :=
  let st1 :=
    if lap ∈ pit_laps then
      { st with total_time := st.total_time + typical_pit_time, tire_age := 0 }
    else st
  let lap_time :=
    baseline_laptime * (1 + degradation_rate * (st1.tire_age : ℚ) / 100)
  { tire_age := st1.tire_age + 1
    total_time := st1.total_time + lap_time
    lap_times := st1.lap_times ++ [lap_time] }

/-- The dictionary returned by `simulate_race_to_finish`
(pit_strategy.py, lines 366–374). -/
structure SimToFinishResult where
  total_race_time : ℚ
  average_lap_time : ℚ
  slowest_lap_time : ℚ
  fastest_lap_time : ℚ
  total_pit_stops : ℕ
  final_tire_age : ℕ
  lap_times : List ℚ
deriving DecidableEq, Repr

/-- Embeds `PitStrategyOptimizer.simulate_race_to_finish` (pit_strategy.py, lines
321–374).  `np.max` / `np.min` raise on an empty array (no remaining laps);
the embedding returns `none` exactly there. -/
def simulate_race_to_finish (current_lap total_race_laps current_tire_age : ℕ)
    (pit_laps : List ℕ) (degradation_rate baseline_laptime : ℚ) :
    Option SimToFinishResult :=
  let final := (List.range' (current_lap + 1) (total_race_laps - current_lap)).foldl
    (simToFinishStep pit_laps degradation_rate baseline_laptime)
    { tire_age := current_tire_age, total_time := 0, lap_times := [] }
  match final.lap_times with
  | [] => none
  | t :: ts =>
    some { total_race_time := final.total_time
           average_lap_time := final.lap_times.sum / (final.lap_times.length : ℚ)
           slowest_lap_time := ts.foldl max t
           fastest_lap_time := ts.foldl min t
           total_pit_stops := pit_laps.length
           final_tire_age := final.tire_age
           lap_times := final.lap_times }

end PitStrat

namespace RaceSim

/-- Embeds `TireCompound` (race_simulator.py, lines 14–18). -/
inductive TireCompound where
  | soft
  | medium
  | hard
deriving DecidableEq, Repr

/-- Embeds `TireCharacteristics` (race_simulator.py, lines 21–28). -/
structure TireCharacteristics where
  compound : TireCompound
  base_grip_advantage : ℚ
  degradation_rate : ℚ
  cliff_lap : ℕ
  optimal_stint_length : ℕ
deriving DecidableEq, Repr

/-- Embeds `TireCharacteristics.get_compound_characteristics`
(race_simulator.py, lines 30–56). -/
def get_compound_characteristics : TireCompound → TireCharacteristics
  | .soft =>
    { compound := .soft, base_grip_advantage := -(1 / 2),
      degradation_rate := 3 / 10, cliff_lap := 12, optimal_stint_length := 10 }
  | .medium =>
    { compound := .medium, base_grip_advantage := 0,
      degradation_rate := 15 / 100, cliff_lap := 18, optimal_stint_length := 15 }
  | .hard =>
    { compound := .hard, base_grip_advantage := 3 / 10,
      degradation_rate := 8 / 100, cliff_lap := 25, optimal_stint_length := 20 }

/-- Embeds `RaceSimulator._calculate_tire_degradation` (race_simulator.py, lines
318–340): `0` at tire age `0`, otherwise linear `tire_age * degradation_rate`,
plus the cliff penalty `(laps_past_cliff ** 1.5) * 0.2` once the age exceeds
the compound's cliff lap.  The fractional power forces real-number arithmetic
here. -/
noncomputable def calculate_tire_degradation (tire_age : ℕ)
    (tc : TireCharacteristics) : ℝ :=
  if tire_age = 0 then 0
  else
    let base_deg : ℝ := (tire_age : ℝ) * (tc.degradation_rate : ℝ)
    if tc.cliff_lap < tire_age then
      base_deg + ((tire_age - tc.cliff_lap : ℕ) : ℝ) ^ (1.5 : ℝ) * (0.2 : ℝ)
    else base_deg

/-- Embeds `PitStop` (race_simulator.py, lines 59–64). -/
structure PitStop where
  lap : ℕ
  new_compound : TireCompound
  pit_loss_time : ℚ := 45
deriving DecidableEq, Repr

/-- Embeds `RaceStrategy` (race_simulator.py, lines 67–74). -/
structure RaceStrategy where
  name : String
  starting_compound : TireCompound
  pit_stops : List PitStop
  fuel_saving_mode : Bool := false
  push_laps : List ℕ := []
deriving DecidableEq, Repr

/-- Embeds `LapResult` (race_simulator.py, lines 77–90). -/
structure LapResult where
  lap_number : ℕ
  lap_time : ℚ
  cumulative_time : ℚ
  tire_compound : TireCompound
  tire_age : ℕ
  tire_degradation : ℚ
  position_estimate : ℕ
  gap_to_leader : ℚ
  is_pit_lap : Bool
  fuel_load : ℤ
  notes : String
deriving DecidableEq, Repr

/-- Per-compound lap counts (`tire_usage` dict, race_simulator.py, line 161). -/
structure TireUsage where
  soft : ℕ := 0
  medium : ℕ := 0
  hard : ℕ := 0
deriving DecidableEq, Repr

def TireUsage.bump (u : TireUsage) : TireCompound → TireUsage
  | .soft => { u with soft := u.soft + 1 }
  | .medium => { u with medium := u.medium + 1 }
  | .hard => { u with hard := u.hard + 1 }

/-- Embeds `RaceSimulationResult` (race_simulator.py, lines 93–104). -/
structure RaceSimulationResult where
  strategy : RaceStrategy
  lap_results : List LapResult
  total_time : ℚ
  final_position : ℕ
  total_pit_stops : ℕ
  average_lap_time : ℚ
  fastest_lap : ℚ
  slowest_lap : ℚ
  tire_usage_summary : TireUsage
deriving DecidableEq, Repr

/-- The constructor parameters of `RaceSimulator` (race_simulator.py, lines
112–134) that enter the lap-time formula.  `traffic_variance` only bounds the
uniform random draw; the draw itself enters the embedding as the explicit
per-lap `traffic` argument below. -/
structure RaceSimulator where
  baseline_lap_time : ℚ
  total_race_laps : ℕ
  fuel_effect_per_lap : ℚ := 3 / 100
deriving DecidableEq, Repr

/-- Embeds `RaceSimulator._calculate_lap_time` (race_simulator.py, lines 279–316),
with the per-lap tire degradation abstracted as `degFn` (the source
instantiates it with `_calculate_tire_degradation`, a real-valued function;
every theorem below is proved for an arbitrary `degFn`, hence covers that
instantiation) and the `np.random.uniform(-v, v)` draw passed in as
`traffic`.  The result is floored at `0.95 * baseline`. -/
def calculate_lap_time (sim : RaceSimulator)
    (degFn : ℕ → TireCharacteristics → ℚ) (tire_compound : TireCompound)
    (tire_age : ℕ) (fuel_load : ℤ) (is_push_lap fuel_saving : Bool)
    (traffic : ℚ) : ℚ :=
  let tc := get_compound_characteristics tire_compound
  let lap_time := sim.baseline_lap_time + tc.base_grip_advantage +
    sim.baseline_lap_time * (degFn tire_age tc / 100) +
    (fuel_load : ℚ) * sim.fuel_effect_per_lap +
    (if is_push_lap then -(3 / 10 : ℚ) else 0) +
    (if fuel_saving then (2 / 10 : ℚ) else 0) + traffic
  max lap_time (sim.baseline_lap_time * (95 / 100))

/-- The `value` string of the `TireCompound` enum (race_simulator.py, lines
14–18). -/
def TireCompound.value : TireCompound → String
  | .soft => "soft"
  | .medium => "medium"
  | .hard => "hard"

/-- Embeds `RaceSimulator._generate_lap_notes` (race_simulator.py, lines 342–366). -/
def generate_lap_notes (tire_age : ℕ) (tc : TireCharacteristics)
    (is_pit_lap : Bool) : String :=
  if is_pit_lap then
    "PIT STOP - Fresh " ++ tc.compound.value ++ " tires"
  else if tire_age = 1 then "Fresh " ++ tc.compound.value ++ " tires"
  else if tc.cliff_lap < tire_age then
    "CRITICAL: " ++ toString (tire_age - tc.cliff_lap) ++ " laps past cliff!"
  else if tc.optimal_stint_length ≤ tire_age then
    "Tires worn - consider pit stop"
  else if tire_age < 5 then "Good tire performance"
  else "Managing tire wear"

/-- State threaded through the lap loop of `simulate_race`. -/
structure SimState where
  cumulative_time : ℚ
  current_compound : TireCompound
  tire_age : ℕ
  fuel_load : ℤ
  tire_usage : TireUsage
  pit_stop_count : ℕ
  lap_results : List LapResult
deriving DecidableEq, Repr

/-- One iteration of the lap loop of `simulate_race` (race_simulator.py, lines
164–220): on a pit lap switch to the compound of the first matching pit stop,
reset the tire age to 0 and charge its pit loss to the cumulative time (never
to the lap time); otherwise age the tires; then compute the lap time, add it
to the cumulative time, record usage, burn one lap of fuel and append the
`LapResult`. -/
def race_step (sim : RaceSimulator) (degFn : ℕ → TireCharacteristics → ℚ)
    (traffic : ℕ → ℚ) (strategy : RaceStrategy) (st : SimState) (lap : ℕ) :
    SimState :=
  match strategy.pit_stops.find? (fun ps => ps.lap == lap) with
  | some pit_stop =>
    let st1 : SimState :=
      { st with current_compound := pit_stop.new_compound, tire_age := 0,
                pit_stop_count := st.pit_stop_count + 1,
                cumulative_time := st.cumulative_time + pit_stop.pit_loss_time }
    race_lap sim degFn traffic strategy st1 lap true
  | none =>
    race_lap sim degFn traffic strategy { st with tire_age := st.tire_age + 1 }
      lap false
where
  /-- The part of the loop body shared by pit and non-pit laps
  (race_simulator.py, lines 183–220). -/
  race_lap (sim : RaceSimulator) (degFn : ℕ → TireCharacteristics → ℚ)
      (traffic : ℕ → ℚ) (strategy : RaceStrategy) (st : SimState) (lap : ℕ)
      (is_pit_lap : Bool) : SimState :=
    let lap_time := calculate_lap_time sim degFn st.current_compound
      st.tire_age st.fuel_load (decide (lap ∈ strategy.push_laps))
      strategy.fuel_saving_mode (traffic lap)
    let cumulative := st.cumulative_time + lap_time
    let tc := get_compound_characteristics st.current_compound
    let result : LapResult :=
      { lap_number := lap, lap_time := lap_time, cumulative_time := cumulative,
        tire_compound := st.current_compound, tire_age := st.tire_age,
        tire_degradation := degFn st.tire_age tc, position_estimate := 1,
        gap_to_leader := 0, is_pit_lap := is_pit_lap,
        fuel_load := st.fuel_load - 1,
        notes := generate_lap_notes st.tire_age tc is_pit_lap }
    { st with cumulative_time := cumulative,
              tire_usage := st.tire_usage.bump st.current_compound,
              fuel_load := st.fuel_load - 1,
              lap_results := st.lap_results ++ [result] }

/-- Embeds `RaceSimulator.simulate_race` (race_simulator.py, lines 136–238).  The
closing statistics take `np.mean` / `np.min` / `np.max` over the lap times of
the non-pit laps only; `np.min` / `np.max` raise on an empty array (every lap
a pit lap), where the embedding returns `none`. -/
def simulate_race (sim : RaceSimulator)
    (degFn : ℕ → TireCharacteristics → ℚ) (traffic : ℕ → ℚ)
    (strategy : RaceStrategy) : Option RaceSimulationResult :=
  let final := (List.range' 1 sim.total_race_laps).foldl
    (race_step sim degFn traffic strategy)
    { cumulative_time := 0, current_compound := strategy.starting_compound,
      tire_age := 0, fuel_load := (sim.total_race_laps : ℤ),
      tire_usage := {}, pit_stop_count := 0, lap_results := [] }
  let lap_times :=
    (final.lap_results.filter fun lr => !lr.is_pit_lap).map (·.lap_time)
  match lap_times with
  | [] => none
  | t :: ts =>
    some { strategy := strategy
           lap_results := final.lap_results
           total_time := final.cumulative_time
           final_position := 1
           total_pit_stops := final.pit_stop_count
           average_lap_time := lap_times.sum / (lap_times.length : ℚ)
           fastest_lap := ts.foldl min t
           slowest_lap := ts.foldl max t
           tire_usage_summary := final.tire_usage }

end RaceSim

/-! Auxiliary definitions used by the theorems: a concrete cliff-penalty
kernel for closed instantiations (the pit-window theorems hold for every
kernel, and on every input appearing in a closed statement below the no-pit
branch that consumes the kernel is not evaluated), the spec-side total for
`simulate_race_to_finish`, the step invariant of the degradation bookkeeping,
the total pit loss charged by `simulate_race`, and concrete inputs/outputs
used by witnesses. -/

/-- A concrete stand-in for the `pow32` cliff kernel, used only to instantiate
universally-quantified theorems in closed statements whose computations never
evaluate the kernel. -/
def quadKernel : ℕ → ℚ := fun m => (m : ℚ) * m

/-- The relation the spec asserts between consecutive rows of
`calculate_lap_degradation` output, corrected to what the source computes: the
reset to tire age 1, together with the stint increment, happens on the row
whose own lap number is a pit lap (`is_pit_lap = true`); on any other row the
tire age grows by exactly 1 and the stint number is unchanged (hence
monotonically non-decreasing overall). -/
def TireDeg.SampleStep (s₁ s₂ : TireDeg.DegradationSample) : Prop :=
  (s₂.is_pit_lap = true →
    s₂.tire_age = 1 ∧ s₂.stint_number = s₁.stint_number + 1) ∧
  (s₂.is_pit_lap = false →
    s₂.tire_age = s₁.tire_age + 1 ∧ s₂.stint_number = s₁.stint_number)

/-- The total race time the spec sentence ascribes to
`simulate_race_to_finish` with an empty pit list: the sum of
`baseline * (1 + degradation_rate * age / 100)` over the tire ages
`current_tire_age + 1 .. current_tire_age + remaining_laps`.  Written from the
spec's words, for comparison against the embedded source. -/
def PitStrat.spec_total_empty_pit (current_lap total_race_laps
    current_tire_age : ℕ) (degradation_rate baseline_laptime : ℚ) : ℚ :=
  ((List.range (total_race_laps - current_lap)).map fun (k : ℕ) =>
    baseline_laptime *
      (1 + degradation_rate * ((current_tire_age + k + 1 : ℕ) : ℚ) / 100)).sum

/-- The pit loss `simulate_race` charges on one lap: the loss of the first
pit stop configured for that lap, if any. -/
def RaceSim.lapPitLoss (strategy : RaceSim.RaceStrategy) (lap : ℕ) : ℚ :=
  match strategy.pit_stops.find? (fun ps => ps.lap == lap) with
  | some ps => ps.pit_loss_time
  | none => 0

/-- The pit loss charged to cumulative time over a whole race by
`simulate_race`. -/
def RaceSim.pitLossTotal (strategy : RaceSim.RaceStrategy) (n : ℕ) : ℚ :=
  ((List.range' 1 n).map (RaceSim.lapPitLoss strategy)).sum

/-- Concrete strategy for the `simulate_race` witness: medium compound, no
stops. -/
def RaceSim.strategyNoStop : RaceSim.RaceStrategy :=
  { name := "no_stop", starting_compound := .medium, pit_stops := [] }

/-- Concrete degradation function for witnesses: the linear part of the
compound model. -/
def RaceSim.linearDegFn : ℕ → RaceSim.TireCharacteristics → ℚ :=
  fun tire_age tc => (tire_age : ℚ) * tc.degradation_rate

/-- The result of `simulate_race` on a one-lap race at baseline 100 with
`strategyNoStop`, `linearDegFn` and zero traffic, used by the C10 witness. -/
def RaceSim.oneLapExample : RaceSim.RaceSimulationResult :=
  { strategy := RaceSim.strategyNoStop
    lap_results :=
      [{ lap_number := 1, lap_time := 5009 / 50, cumulative_time := 5009 / 50,
         tire_compound := .medium, tire_age := 1, tire_degradation := 3 / 20,
         position_estimate := 1, gap_to_leader := 0, is_pit_lap := false,
         fuel_load := 0, notes := "Fresh medium tires" }]
    total_time := 5009 / 50
    final_position := 1
    total_pit_stops := 0
    average_lap_time := 5009 / 50
    fastest_lap := 5009 / 50
    slowest_lap := 5009 / 50
    tire_usage_summary := { medium := 1 } }

/-- The result of `calculate_pit_window` on the one-remaining-lap race used by
the C8 witness (`current_lap = 0`, `total_race_laps = 1`, fresh tires, zero
degradation rate, baseline 100): the no-pit scenario (net 0) ranks above the
single lap-1 pit candidate (net −45). -/
def PitStrat.pitWindowExample : PitStrat.PitWindowResult :=
  { optimal_pit_lap := 0
    laps_until_pit := 0
    projected_time_loss := 0
    projected_time_gain := 0
    net_advantage := 0
    recommendation := "NO_PIT_RECOMMENDED"
    confidence_score := 60
    alternative_scenarios := [(0, 0, 60), (1, -45, 41)] }

/-! ## Theorems -/

theorem absQ_eq_abs (x : ℚ) : absQ x = |x| := by
  unfold absQ
  rcases lt_or_le x 0 with h | h
  · rw [if_pos h, abs_of_neg h]
  · rw [if_neg (not_lt.mpr h), abs_of_nonneg h]

/-! ### C3 — undercut analysis -/

/-- C3 (amended): `calculate_undercut_opportunity` reports
`time_gain_potential = undercut_gain + fresh_tire_advantage`,
`viable = (total_potential > |gap|)` and
`advantage_margin = total_potential − |gap|` as the claim states, but the
`UNDERCUT_NOW` label tests the potential against the *signed*
`gap_to_competitor + 2`, not against `|gap| + 2`: the label is `UNDERCUT_NOW`
iff viable and `total_potential > gap_to_competitor + 2`, else `MONITOR`. -/
theorem undercut_fields_and_label (current_lap own_tire_age
    competitor_tire_age : ℕ) (gap_to_competitor degradation_rate
    baseline_laptime : ℚ)
    (res : PitStrat.UndercutResult)
    (hres : res = PitStrat.calculate_undercut_opportunity current_lap
      own_tire_age competitor_tire_age gap_to_competitor degradation_rate
      baseline_laptime) :
    (res.undercut_viable = true ↔
      |gap_to_competitor| < res.time_gain_potential) ∧
    res.gap_required = |gap_to_competitor| ∧
    res.advantage_margin = res.time_gain_potential - |gap_to_competitor| ∧
    (res.recommendation = "UNDERCUT_NOW" ↔
      (res.undercut_viable = true ∧
        gap_to_competitor + 2 < res.time_gain_potential)) := by
  subst hres
  dsimp only [PitStrat.calculate_undercut_opportunity]
  rw [absQ_eq_abs]
  refine ⟨by simp, rfl, rfl, ?_⟩
  constructor
  · intro hs
    by_contra hc
    rw [if_neg] at hs
    · exact absurd hs (by decide)
    · intro hand
      exact hc (by simpa using hand)
  · intro hand
    rw [if_pos]
    exact ⟨by simpa using hand.1, hand.2⟩

/-- C3 witness: the claimed field relations and the label rule instantiated
at `gap = 17.5`, rate 1, baseline 100, competitor tire age 10. -/
theorem undercut_fields_and_label_witness :
    ((PitStrat.calculate_undercut_opportunity 20 12 10 (35 / 2) 1
        100).undercut_viable = true ↔
      |(35 / 2 : ℚ)| < (PitStrat.calculate_undercut_opportunity 20 12 10
        (35 / 2) 1 100).time_gain_potential) ∧
    (PitStrat.calculate_undercut_opportunity 20 12 10 (35 / 2) 1
        100).gap_required = |(35 / 2 : ℚ)| ∧
    (PitStrat.calculate_undercut_opportunity 20 12 10 (35 / 2) 1
        100).advantage_margin =
      (PitStrat.calculate_undercut_opportunity 20 12 10 (35 / 2) 1
        100).time_gain_potential - |(35 / 2 : ℚ)| ∧
    ((PitStrat.calculate_undercut_opportunity 20 12 10 (35 / 2) 1
        100).recommendation = "UNDERCUT_NOW" ↔
      ((PitStrat.calculate_undercut_opportunity 20 12 10 (35 / 2) 1
          100).undercut_viable = true ∧
        (35 / 2 : ℚ) + 2 < (PitStrat.calculate_undercut_opportunity 20 12 10
          (35 / 2) 1 100).time_gain_potential)) :=
  undercut_fields_and_label 20 12 10 (35 / 2) 1 100 _ rfl

/-- C3 counterexample: at `gap_to_competitor = −17.5`, `degradation_rate = 1`,
`baseline = 100`, `competitor_tire_age = 10`, the total undercut potential is
`18.5`, so the scenario is viable with `advantage_margin = 1`, which does not
exceed `2`; the claim then requires the label `MONITOR`, but the source labels
it `UNDERCUT_NOW` (because `18.5 > −17.5 + 2`). -/
theorem undercut_label_uses_signed_gap :
    (PitStrat.calculate_undercut_opportunity 20 12 10 (-(35 / 2)) 1
        100).recommendation = "UNDERCUT_NOW" ∧
    (PitStrat.calculate_undercut_opportunity 20 12 10 (-(35 / 2)) 1
        100).undercut_viable = true ∧
    ¬ (2 < (PitStrat.calculate_undercut_opportunity 20 12 10 (-(35 / 2)) 1
        100).advantage_margin) := by
  refine ⟨?_, ?_, ?_⟩ <;>
    norm_num [PitStrat.calculate_undercut_opportunity,
      PitStrat.typical_pit_time, List.range_succ, absQ]

/-! ### C9 — simulator compound degradation formula -/

/-- C9: for every compound profile and tire age, the simulator's degradation
is `0` at age `0`, exactly `age * decay_rate` for `1 ≤ age ≤ cliff_lap`, and
for `age > cliff_lap` exactly `age * decay_rate + (age − cliff_lap)^1.5 * 0.2`,
which is strictly greater than the pure-linear value. -/
theorem compound_degradation_formula (c : RaceSim.TireCompound)
    (tire_age : ℕ) :
    let tc := RaceSim.get_compound_characteristics c
    (tire_age = 0 → RaceSim.calculate_tire_degradation tire_age tc = 0) ∧
    (1 ≤ tire_age → tire_age ≤ tc.cliff_lap →
      RaceSim.calculate_tire_degradation tire_age tc =
        (tire_age : ℝ) * (tc.degradation_rate : ℝ)) ∧
    (tc.cliff_lap < tire_age →
      RaceSim.calculate_tire_degradation tire_age tc =
        (tire_age : ℝ) * (tc.degradation_rate : ℝ) +
          ((tire_age - tc.cliff_lap : ℕ) : ℝ) ^ (1.5 : ℝ) * (0.2 : ℝ) ∧
      (tire_age : ℝ) * (tc.degradation_rate : ℝ) <
        RaceSim.calculate_tire_degradation tire_age tc) := by
  intro tc
  refine ⟨?_, ?_, ?_⟩
  · intro h
    simp [RaceSim.calculate_tire_degradation, h]
  · intro h1 h2
    simp only [RaceSim.calculate_tire_degradation]
    rw [if_neg (by omega : ¬ tire_age = 0),
      if_neg (by omega : ¬ tc.cliff_lap < tire_age)]
  · intro h
    have heq : RaceSim.calculate_tire_degradation tire_age tc =
        (tire_age : ℝ) * (tc.degradation_rate : ℝ) +
          ((tire_age - tc.cliff_lap : ℕ) : ℝ) ^ (1.5 : ℝ) * (0.2 : ℝ) := by
      simp only [RaceSim.calculate_tire_degradation]
      rw [if_neg (by omega : ¬ tire_age = 0), if_pos h]
    refine ⟨heq, ?_⟩
    rw [heq]
    have hm : (0 : ℝ) < ((tire_age - tc.cliff_lap : ℕ) : ℝ) := by
      have h0 : 0 < tire_age - tc.cliff_lap := by omega
      exact_mod_cast h0
    have hp : (0 : ℝ) < ((tire_age - tc.cliff_lap : ℕ) : ℝ) ^ (1.5 : ℝ) :=
      Real.rpow_pos_of_pos hm _
    nlinarith [hp]

/-- C9 witness: soft compound at tire age 13 (one lap past its cliff at 12):
the degradation carries the cliff penalty and strictly exceeds the linear
value. -/
theorem compound_degradation_formula_witness :
    RaceSim.calculate_tire_degradation 13
        (RaceSim.get_compound_characteristics .soft) =
      (13 : ℝ) *
        ((RaceSim.get_compound_characteristics .soft).degradation_rate : ℝ) +
        ((13 - (RaceSim.get_compound_characteristics .soft).cliff_lap : ℕ) : ℝ)
          ^ (1.5 : ℝ) * (0.2 : ℝ) ∧
    (13 : ℝ) *
        ((RaceSim.get_compound_characteristics .soft).degradation_rate : ℝ) <
      RaceSim.calculate_tire_degradation 13
        (RaceSim.get_compound_characteristics .soft) := by
  have h := compound_degradation_formula .soft 13
  simp only at h
  exact h.2.2 (by decide)

/-! ### C2 — pit-window scenario search totality -/

/-- C2 (amended): `calculate_pit_window` returns a result — for any cliff
kernel, degradation rate (however pathological the resulting net advantages)
and positive or zero baseline — whenever at least one lap remains
(`current_lap < total_race_laps`).  At `current_lap = total_race_laps` with
`current_tire_age ≥ 12` the scenario list is empty and `scenarios[0]` raises
`IndexError` (see the counterexample), so the claim's bound
`current_lap ≤ total_race_laps` is tightened to a strict inequality. -/
theorem pit_window_returns_result_when_laps_remain (pow32 : ℕ → ℚ)
    (current_lap total_race_laps current_tire_age : ℕ)
    (degradation_rate baseline_laptime : ℚ)
    (h : current_lap < total_race_laps) :
    (PitStrat.calculate_pit_window pow32 current_lap total_race_laps
      current_tire_age degradation_rate baseline_laptime).isSome = true := by
  have hlen : (PitStrat.evaluated_scenarios pow32 current_lap total_race_laps
      current_tire_age degradation_rate baseline_laptime).length ≠ 0 := by
    simp only [PitStrat.evaluated_scenarios, List.length_append,
      List.length_map, List.length_range]
    have h1 : 1 ≤ min 15 (total_race_laps - current_lap) := by omega
    omega
  cases hs : PitStrat.sortScenariosDesc (PitStrat.evaluated_scenarios pow32
      current_lap total_race_laps current_tire_age degradation_rate
      baseline_laptime) with
  | nil =>
    exfalso
    apply hlen
    have hperm := List.perm_insertionSort
      (fun s t : PitStrat.PitStopScenario =>
        t.net_advantage ≤ s.net_advantage)
      (PitStrat.evaluated_scenarios pow32 current_lap total_race_laps
        current_tire_age degradation_rate baseline_laptime)
    have hl := hperm.length_eq
    rw [show PitStrat.sortScenariosDesc (PitStrat.evaluated_scenarios pow32
        current_lap total_race_laps current_tire_age degradation_rate
        baseline_laptime) = List.insertionSort _ _ from rfl] at hs
    rw [hs] at hl
    simpa using hl.symm
  | cons o rest =>
    simp [PitStrat.calculate_pit_window, hs]

/-- C2 witness: the spec's running example input (`current_lap = 10`,
`total_race_laps = 30`) produces a result. -/
theorem pit_window_returns_result_witness :
    (PitStrat.calculate_pit_window quadKernel 10 30 8 1 100).isSome = true :=
  pit_window_returns_result_when_laps_remain quadKernel 10 30 8 1 100
    (by decide)

/-- C2 counterexample: `current_lap = total_race_laps = 30` with
`current_tire_age = 12` is a valid input under the claim
(`current_lap ≤ total_race_laps`, non-negative tire age, positive baseline),
yet no pit candidate exists (`remaining_laps = 0`) and the no-pit scenario is
not eligible (`current_tire_age ≥ 12`), so `scenarios[0]` raises `IndexError`
— the search does not return a result. -/
theorem pit_window_indexerror_at_race_end :
    PitStrat.calculate_pit_window quadKernel 30 30 12 (2 / 10) (197 / 2) =
      none := by
  norm_num [PitStrat.calculate_pit_window, PitStrat.evaluated_scenarios,
    PitStrat.sortScenariosDesc]

/-! ### C4 — simulate_race_to_finish with no pit stops -/

/-- The lap loop of `simulate_race_to_finish` with an empty pit list: starting
from tire age `tire_age0`, the lap at position `k` of the remaining laps is
charged degradation at tire age `tire_age0 + k` — the source computes the lap
time *before* incrementing the tire age. -/
theorem simToFinish_foldl_no_pit (degradation_rate baseline_laptime : ℚ) :
    ∀ (n start tire_age0 : ℕ) (t0 : ℚ) (lt0 : List ℚ),
    (List.range' start n).foldl
        (PitStrat.simToFinishStep [] degradation_rate baseline_laptime)
        ⟨tire_age0, t0, lt0⟩ =
      ⟨tire_age0 + n,
       t0 + ((List.range n).map fun (k : ℕ) =>
         baseline_laptime *
           (1 + degradation_rate * ((tire_age0 + k : ℕ) : ℚ) / 100)).sum,
       lt0 ++ (List.range n).map fun (k : ℕ) =>
         baseline_laptime *
           (1 + degradation_rate * ((tire_age0 + k : ℕ) : ℚ) / 100)⟩ := by
  intro n
  induction n with
  | zero => intro start a t0 lt0; simp
  | succ m ih =>
    intro start a t0 lt0
    rw [List.range'_succ, List.foldl_cons]
    have hstep : PitStrat.simToFinishStep [] degradation_rate baseline_laptime
        ⟨a, t0, lt0⟩ start =
        ⟨a + 1, t0 + baseline_laptime *
            (1 + degradation_rate * ((a : ℕ) : ℚ) / 100),
         lt0 ++ [baseline_laptime *
            (1 + degradation_rate * ((a : ℕ) : ℚ) / 100)]⟩ := by
      simp [PitStrat.simToFinishStep]
    rw [hstep, ih]
    have hmap : (List.range (m + 1)).map (fun (k : ℕ) =>
        baseline_laptime *
          (1 + degradation_rate * ((a + k : ℕ) : ℚ) / 100)) =
        baseline_laptime * (1 + degradation_rate * ((a : ℕ) : ℚ) / 100) ::
        (List.range m).map (fun (k : ℕ) =>
          baseline_laptime *
            (1 + degradation_rate * ((a + 1 + k : ℕ) : ℚ) / 100)) := by
      rw [List.range_succ_eq_map, List.map_cons, List.map_map]
      simp only [Nat.add_zero]
      congr 1
      apply List.map_congr_left
      intro k _
      simp only [Function.comp_apply]
      rw [show a + (k + 1) = a + 1 + k by omega]
    rw [hmap]
    simp only [List.sum_cons, PitStrat.SimToFinishState.mk.injEq]
    refine ⟨by omega, by ring, by simp⟩

/-- C4 (amended): with an empty pit list and at least one remaining lap,
`simulate_race_to_finish` returns `total_race_time` equal to the sum of
`baseline * (1 + degradation_rate * age / 100)` over the tire ages
`current_tire_age .. current_tire_age + remaining_laps − 1` — one lap *lower*
than the claim's range `current_tire_age + 1 .. current_tire_age +
remaining_laps`, because the source uses each lap's pre-increment tire age.
No pit-loss terms occur. -/
theorem simulate_to_finish_empty_pit_total (current_lap total_race_laps
    current_tire_age : ℕ) (degradation_rate baseline_laptime : ℚ)
    (h : current_lap < total_race_laps) :
    ∃ res, PitStrat.simulate_race_to_finish current_lap total_race_laps
        current_tire_age [] degradation_rate baseline_laptime = some res ∧
      res.total_race_time =
        ((List.range (total_race_laps - current_lap)).map fun (k : ℕ) =>
          baseline_laptime *
            (1 + degradation_rate *
              ((current_tire_age + k : ℕ) : ℚ) / 100)).sum := by
  obtain ⟨m, hm⟩ : ∃ m, total_race_laps - current_lap = m + 1 :=
    ⟨total_race_laps - current_lap - 1, by omega⟩
  simp only [PitStrat.simulate_race_to_finish,
    simToFinish_foldl_no_pit degradation_rate baseline_laptime, hm]
  rw [List.range_succ_eq_map]
  simp only [List.map_cons, List.nil_append, List.sum_cons]
  exact ⟨_, rfl, by simp [List.range_succ_eq_map]⟩

/-- C4 witness: one remaining lap (`current_lap = 1`, `total_race_laps = 2`)
at tire age 5, rate 1, baseline 100. -/
theorem simulate_to_finish_empty_pit_total_witness :
    ∃ res, PitStrat.simulate_race_to_finish 1 2 5 [] 1 100 = some res ∧
      res.total_race_time =
        ((List.range (2 - 1)).map fun (k : ℕ) =>
          (100 : ℚ) * (1 + 1 * ((5 + k : ℕ) : ℚ) / 100)).sum :=
  simulate_to_finish_empty_pit_total 1 2 5 1 100 (by decide)

/-- C4 counterexample: at `current_lap = 1`, `total_race_laps = 2`,
`current_tire_age = 5`, rate 1, baseline 100, the source charges the single
remaining lap at tire age 5 (total `105`), while the claim's sum over ages
`6 .. 6` gives `106`. -/
theorem simulate_to_finish_age_off_by_one :
    (PitStrat.simulate_race_to_finish 1 2 5 [] 1 100).map
        (fun res => res.total_race_time) = some 105 ∧
    PitStrat.spec_total_empty_pit 1 2 5 1 100 = 106 ∧
    (PitStrat.simulate_race_to_finish 1 2 5 [] 1 100).map
        (fun res => res.total_race_time) ≠
      some (PitStrat.spec_total_empty_pit 1 2 5 1 100) := by
  refine ⟨?_, ?_, ?_⟩ <;>
    norm_num [PitStrat.simulate_race_to_finish, PitStrat.simToFinishStep,
      PitStrat.spec_total_empty_pit, PitStrat.typical_pit_time, List.range',
      List.range_succ]

/-! ### C7 — candidate generation and the example window -/

/-- Evaluation of `calculate_pit_window` on the spec's example input
(`current_lap = 10`, `total_race_laps = 30`, `current_tire_age = 8`,
rate 0.2 %/lap, baseline 98.5 s): the optimal pit lap is 11, the first
candidate.  (Heartbeat limit raised for this 15-scenario evaluation.)  The no-pit branch is not evaluated on this input
(`remaining_laps = 20 > 8`), so the cliff kernel is irrelevant and
`quadKernel` stands in for it. -/
theorem pitWindowExampleEval :
    (PitStrat.calculate_pit_window quadKernel 10 30 8 (2 / 10)
        (197 / 2)).map (·.optimal_pit_lap) = some 11 := by
  norm_num [PitStrat.calculate_pit_window, PitStrat.evaluated_scenarios,
    PitStrat.sortScenariosDesc, PitStrat.evaluate_pit_scenario,
    PitStrat.evaluate_no_pit_scenario, PitStrat.typical_pit_time,
    List.range_succ, absQ, quadKernel]

/-- C7 (amended): for every input and cliff kernel, the pit-lap candidates
evaluated are exactly the laps `current_lap + 1 .. current_lap +
min(15, remaining_laps)`, with the no-pit scenario (`pit_lap = 0`) appended
iff `remaining_laps ≤ 8` and `current_tire_age < 12`; on the example input
(`current_lap = 10`, `total_race_laps = 30`, `current_tire_age = 8`) no
no-pit scenario is evaluated and the returned optimal pit lap is 11 — the
first lap of the candidate window `[11, 25]`, hence *not* strictly between 11
and 25 as the claim demands. -/
theorem pit_candidates_and_example_window :
    (∀ (pow32 : ℕ → ℚ)
        (current_lap total_race_laps current_tire_age : ℕ)
        (degradation_rate baseline_laptime : ℚ),
      (PitStrat.evaluated_scenarios pow32 current_lap total_race_laps
          current_tire_age degradation_rate baseline_laptime).map
        (·.pit_lap) =
        List.range' (current_lap + 1)
          (min 15 (total_race_laps - current_lap)) ++
        (if total_race_laps - current_lap ≤ 8 ∧ current_tire_age < 12
         then [0] else [])) ∧
    (PitStrat.calculate_pit_window quadKernel 10 30 8 (2 / 10)
        (197 / 2)).map (·.optimal_pit_lap) = some 11 ∧
    0 ∉ (PitStrat.evaluated_scenarios quadKernel 10 30 8 (2 / 10)
        (197 / 2)).map (·.pit_lap) ∧
    11 ∈ List.range' (10 + 1) (min 15 (30 - 10)) := by
  have hcand : ∀ (pow32 : ℕ → ℚ)
      (current_lap total_race_laps current_tire_age : ℕ)
      (degradation_rate baseline_laptime : ℚ),
      (PitStrat.evaluated_scenarios pow32 current_lap total_race_laps
          current_tire_age degradation_rate baseline_laptime).map
        (·.pit_lap) =
        List.range' (current_lap + 1)
          (min 15 (total_race_laps - current_lap)) ++
        (if total_race_laps - current_lap ≤ 8 ∧ current_tire_age < 12
         then [0] else []) := by
    intro pow32 current_lap total_race_laps current_tire_age degradation_rate
      baseline_laptime
    simp only [PitStrat.evaluated_scenarios, List.map_append, List.map_map,
      apply_ite (List.map (fun s : PitStrat.PitStopScenario => s.pit_lap)),
      List.map_cons, List.map_nil]
    rw [List.range'_eq_map_range]
    congr 1
    apply List.map_congr_left
    intro k _
    simp only [Function.comp_apply, PitStrat.evaluate_pit_scenario]
    omega
  refine ⟨hcand, pitWindowExampleEval, ?_, by simp⟩
  rw [hcand]
  simp only [List.mem_append, List.mem_range']
  push_neg
  constructor
  · omega
  · simp

/-- C7 counterexample: on the example input the optimal pit lap equals 11
exactly, so it does not lie *strictly* between 11 and 25. -/
theorem example_optimal_pit_lap_is_eleven :
    (PitStrat.calculate_pit_window quadKernel 10 30 8 (2 / 10)
        (197 / 2)).map (·.optimal_pit_lap) = some 11 ∧
    ¬ (11 < 11 ∧ 11 < 25) :=
  ⟨pitWindowExampleEval, by omega⟩

/-! ### C8 — scenario ranking -/

/-- C8: whenever `calculate_pit_window` returns a result, the chosen optimal
scenario's `net_advantage` is greatest among all evaluated scenarios, the
ranking list is the stable descending sort of the evaluated scenarios by
`net_advantage` (a permutation of them, sorted), and the reported
`alternative_scenarios` are exactly the top 3 of that descending order. -/
theorem optimal_scenario_ranking (pow32 : ℕ → ℚ)
    (current_lap total_race_laps current_tire_age : ℕ)
    (degradation_rate baseline_laptime : ℚ)
    (res : PitStrat.PitWindowResult)
    (h : PitStrat.calculate_pit_window pow32 current_lap total_race_laps
      current_tire_age degradation_rate baseline_laptime = some res) :
    (∀ s ∈ PitStrat.evaluated_scenarios pow32 current_lap total_race_laps
        current_tire_age degradation_rate baseline_laptime,
      s.net_advantage ≤ res.net_advantage) ∧
    List.Sorted
      (fun s t : PitStrat.PitStopScenario =>
        t.net_advantage ≤ s.net_advantage)
      (PitStrat.sortScenariosDesc (PitStrat.evaluated_scenarios pow32
        current_lap total_race_laps current_tire_age degradation_rate
        baseline_laptime)) ∧
    (PitStrat.sortScenariosDesc (PitStrat.evaluated_scenarios pow32
        current_lap total_race_laps current_tire_age degradation_rate
        baseline_laptime)).Perm
      (PitStrat.evaluated_scenarios pow32 current_lap total_race_laps
        current_tire_age degradation_rate baseline_laptime) ∧
    res.alternative_scenarios =
      ((PitStrat.sortScenariosDesc (PitStrat.evaluated_scenarios pow32
          current_lap total_race_laps current_tire_age degradation_rate
          baseline_laptime)).take 3).map
        (fun s => (s.pit_lap, s.net_advantage, s.recommendation_score)) := by
  haveI hTot : IsTotal PitStrat.PitStopScenario
      (fun s t => t.net_advantage ≤ s.net_advantage) :=
    ⟨fun x y => le_total y.net_advantage x.net_advantage⟩
  haveI hTrans : IsTrans PitStrat.PitStopScenario
      (fun s t => t.net_advantage ≤ s.net_advantage) :=
    ⟨fun _ _ _ hab hbc => le_trans hbc hab⟩
  have hsorted : List.Sorted
      (fun s t : PitStrat.PitStopScenario =>
        t.net_advantage ≤ s.net_advantage)
      (PitStrat.sortScenariosDesc (PitStrat.evaluated_scenarios pow32
        current_lap total_race_laps current_tire_age degradation_rate
        baseline_laptime)) :=
    List.sorted_insertionSort _ _
  have hperm : (PitStrat.sortScenariosDesc (PitStrat.evaluated_scenarios pow32
      current_lap total_race_laps current_tire_age degradation_rate
      baseline_laptime)).Perm
      (PitStrat.evaluated_scenarios pow32 current_lap total_race_laps
        current_tire_age degradation_rate baseline_laptime) :=
    List.perm_insertionSort _ _
  simp only [PitStrat.calculate_pit_window] at h
  cases hs : PitStrat.sortScenariosDesc (PitStrat.evaluated_scenarios pow32
      current_lap total_race_laps current_tire_age degradation_rate
      baseline_laptime) with
  | nil => rw [hs] at h; exact absurd h (by simp)
  | cons o rest =>
    rw [hs] at h
    simp only [Option.some.injEq] at h
    subst h
    refine ⟨?_, hs ▸ hsorted, hs ▸ hperm, rfl⟩
    intro s hmem
    have hmem' : s = o ∨ s ∈ rest :=
      List.mem_cons.mp ((hs ▸ hperm).mem_iff.mpr hmem)
    show s.net_advantage ≤ o.net_advantage
    rcases hmem' with rfl | hrest
    · exact le_refl _
    · exact List.rel_of_sorted_cons (hs ▸ hsorted) s hrest

/-- C8 witness: on the one-remaining-lap input (`current_lap = 0`,
`total_race_laps = 1`, fresh tires, zero rate, baseline 100) the returned
record is `pitWindowExample`: its alternatives are the top 3 of the
descending order and its net advantage (0, the no-pit scenario) bounds the
lap-1 candidate's (−45). -/
theorem optimal_scenario_ranking_witness :
    (∀ s ∈ PitStrat.evaluated_scenarios quadKernel 0 1 0 0 100,
      s.net_advantage ≤ PitStrat.pitWindowExample.net_advantage) ∧
    PitStrat.pitWindowExample.alternative_scenarios =
      ((PitStrat.sortScenariosDesc
          (PitStrat.evaluated_scenarios quadKernel 0 1 0 0 100)).take 3).map
        (fun s => (s.pit_lap, s.net_advantage, s.recommendation_score)) := by
  have h := optimal_scenario_ranking quadKernel 0 1 0 0 100
    PitStrat.pitWindowExample
    (by norm_num [PitStrat.calculate_pit_window, PitStrat.evaluated_scenarios,
      PitStrat.sortScenariosDesc, PitStrat.evaluate_pit_scenario,
      PitStrat.evaluate_no_pit_scenario, PitStrat.typical_pit_time,
      PitStrat.generate_recommendation, PitStrat.pitWindowExample,
      List.range_succ, absQ, quadKernel])
  exact ⟨h.1, h.2.2.2⟩

/-! ### C5 — fewer than 5 accepted laps -/

/-- C5 (amended): a vehicle whose series yields fewer than 5 accepted
(post-filter) laps is *silently skipped* by `calculate_lap_degradation` — it
contributes no rows and no error is raised for it.  Only when the resulting
degradation data is empty does `fit_degradation_model` fail, and it does so
with an untyped `ValueError("No degradation data available for model
fitting")`; no `InsufficientDataError` type exists in the source. -/
theorem insufficient_data_silently_skipped (pairs : List (ℕ × ℚ))
    (pit : List ℕ) (h : (TireDeg.cleanAccepted pairs).length < 5) :
    TireDeg.calculate_lap_degradation pairs pit = [] ∧
    TireDeg.fit_degradation_model
        (TireDeg.calculate_lap_degradation pairs pit) =
      Except.error "No degradation data available for model fitting" := by
  have hempty : TireDeg.calculate_lap_degradation pairs pit = [] := by
    by_cases h1 : pairs.length < 5
    · simp [TireDeg.calculate_lap_degradation, h1]
    · simp [TireDeg.calculate_lap_degradation, h1, h]
  exact ⟨hempty, by rw [hempty]; rfl⟩

/-- C5 witness: five raw laps of which the 200-second outlier is filtered,
leaving 4 accepted laps. -/
theorem insufficient_data_silently_skipped_witness :
    TireDeg.calculate_lap_degradation
        [(1, 100), (2, 100), (3, 100), (4, 100), (5, 200)] [] = [] ∧
    TireDeg.fit_degradation_model
        (TireDeg.calculate_lap_degradation
          [(1, 100), (2, 100), (3, 100), (4, 100), (5, 200)] []) =
      Except.error "No degradation data available for model fitting" :=
  insufficient_data_silently_skipped
    [(1, 100), (2, 100), (3, 100), (4, 100), (5, 200)] []
    (by norm_num [TireDeg.cleanAccepted, TireDeg.median, absQ,
      List.insertionSort, List.orderedInsert])

/-- C5 counterexample: on the same input the fit for the vehicle does not
fail with a typed `InsufficientDataError` — the vehicle produces the empty
sample list (a silently reduced result), and the only failure available is
the untyped `ValueError` raised by `fit_degradation_model` on empty data. -/
theorem insufficient_data_no_typed_error :
    TireDeg.calculate_lap_degradation
        [(1, 100), (2, 100), (3, 100), (4, 100), (5, 200)] [] = [] ∧
    TireDeg.fit_degradation_model [] =
      Except.error "No degradation data available for model fitting" := by
  constructor
  · norm_num [TireDeg.calculate_lap_degradation, TireDeg.cleanAccepted,
      TireDeg.median, absQ, List.insertionSort, List.orderedInsert]
  · rfl

/-! ### C6 — baseline from the three fastest accepted laps -/

/-- Rows emitted by the bookkeeping loop carry the baseline they were built
with, and their degradation percentage is the relative delta to it. -/
theorem bookkeep_baseline_fields (pit : List ℕ) (b : ℚ) :
    ∀ (l : List (ℕ × ℚ)) (a s idx : ℕ),
      ∀ x ∈ TireDeg.bookkeep pit b l a s idx,
        x.baseline_time = b ∧
        x.degradation_pct = (x.lap_time - b) / b * 100 := by
  intro l
  induction l with
  | nil => intro a s idx x hx; simp [TireDeg.bookkeep] at hx
  | cons p rest ih =>
    intro a s idx x hx
    obtain ⟨ln, lt⟩ := p
    rw [TireDeg.bookkeep] at hx
    rcases List.mem_cons.mp hx with rfl | hx'
    · exact ⟨rfl, rfl⟩
    · exact ih _ _ _ x hx'

/-- Accepted lap times sit above the absolute lower bound 80 s enforced by
the outlier filter. -/
theorem clean_times_ge_80 (pairs : List (ℕ × ℚ)) :
    ∀ p ∈ TireDeg.cleanAccepted pairs, (80 : ℚ) ≤ p.2 := by
  intro p hp
  have hmem := List.mem_filter.mp hp
  have hcond := hmem.2
  simp only [Bool.and_eq_true, decide_eq_true_eq] at hcond
  calc (80 : ℚ) ≤ max 80 _ := le_max_left _ _
    _ ≤ p.2 := hcond.1

/-- C6 (amended): for a vehicle with at least 5 accepted laps, the baseline
equals the mean of the 3 smallest accepted lap times and every emitted row
carries it; the degradation percentages of the 3 laps composing the baseline
*sum* to 0 — so the fastest of them is ≤ 0 — but each individually need not
be ≤ 0 (see the counterexample: the third-fastest can sit above the mean). -/
theorem baseline_mean_of_three_fastest (pairs : List (ℕ × ℚ))
    (pit : List ℕ) (h5 : 5 ≤ pairs.length)
    (hc : 5 ≤ (TireDeg.cleanAccepted pairs).length) :
    let sorted := ((TireDeg.cleanAccepted pairs).map
      Prod.snd).insertionSort (· ≤ ·)
    let b := TireDeg.baselineOf (TireDeg.cleanAccepted pairs)
    b = (sorted.getD 0 0 + sorted.getD 1 0 + sorted.getD 2 0) / 3 ∧
    (∀ x ∈ TireDeg.calculate_lap_degradation pairs pit,
      x.baseline_time = b ∧
      x.degradation_pct = (x.lap_time - b) / b * 100) ∧
    (sorted.getD 0 0 - b) / b * 100 + (sorted.getD 1 0 - b) / b * 100 +
      (sorted.getD 2 0 - b) / b * 100 = 0 ∧
    (sorted.getD 0 0 - b) / b * 100 ≤ 0 := by
  intro sorted b
  have hsortlen : sorted.length = (TireDeg.cleanAccepted pairs).length := by
    have h1 : sorted.length =
        ((TireDeg.cleanAccepted pairs).map Prod.snd).length :=
      List.length_insertionSort _ _
    simpa using h1
  have h0 : 0 < sorted.length := by omega
  have h1 : 1 < sorted.length := by omega
  have h2 : 2 < sorted.length := by omega
  have hb : b = (sorted.getD 0 0 + sorted.getD 1 0 + sorted.getD 2 0) / 3 :=
    rfl
  have hge : ∀ t ∈ sorted, (80 : ℚ) ≤ t := by
    intro t ht
    have ht' : t ∈ (TireDeg.cleanAccepted pairs).map Prod.snd :=
      (List.perm_insertionSort (· ≤ ·) _).mem_iff.mp ht
    obtain ⟨p, hp, rfl⟩ := List.mem_map.mp ht'
    exact clean_times_ge_80 pairs p hp
  have hsorted : List.Sorted (· ≤ ·) sorted :=
    List.sorted_insertionSort _ _
  have hge0 : (80 : ℚ) ≤ sorted.getD 0 0 := by
    rw [List.getD_eq_getElem _ _ h0]
    exact hge _ (List.getElem_mem h0)
  have hge1 : (80 : ℚ) ≤ sorted.getD 1 0 := by
    rw [List.getD_eq_getElem _ _ h1]
    exact hge _ (List.getElem_mem h1)
  have hge2 : (80 : ℚ) ≤ sorted.getD 2 0 := by
    rw [List.getD_eq_getElem _ _ h2]
    exact hge _ (List.getElem_mem h2)
  have hle01 : sorted.getD 0 0 ≤ sorted.getD 1 0 := by
    rw [List.getD_eq_getElem _ _ h0, List.getD_eq_getElem _ _ h1]
    exact List.pairwise_iff_getElem.mp hsorted 0 1 h0 h1 (by omega)
  have hle02 : sorted.getD 0 0 ≤ sorted.getD 2 0 := by
    rw [List.getD_eq_getElem _ _ h0, List.getD_eq_getElem _ _ h2]
    exact List.pairwise_iff_getElem.mp hsorted 0 2 h0 h2 (by omega)
  have hbpos : 0 < b := by rw [hb]; linarith
  have hle0b : sorted.getD 0 0 ≤ b := by rw [hb]; linarith
  refine ⟨hb, ?_, ?_, ?_⟩
  · intro x hx
    have hguard1 : ¬ pairs.length < 5 := by omega
    have hguard2 : ¬ (TireDeg.cleanAccepted pairs).length < 5 := by omega
    rw [TireDeg.calculate_lap_degradation] at hx
    rw [if_neg hguard1, if_neg hguard2] at hx
    exact bookkeep_baseline_fields pit b _ _ _ _ x hx
  · rw [hb]; ring
  · have hnum : sorted.getD 0 0 - b ≤ 0 := by linarith
    have hdiv : (sorted.getD 0 0 - b) / b ≤ 0 :=
      div_nonpos_iff.mpr (Or.inr ⟨hnum, hbpos.le⟩)
    linarith

/-- C6 witness: five identical 100-second laps — baseline 100, all
degradation percentages 0. -/
theorem baseline_mean_of_three_fastest_witness :
    let sorted := ((TireDeg.cleanAccepted
      [(1, 100), (2, 100), (3, 100), (4, 100), (5, 100)]).map
      Prod.snd).insertionSort (· ≤ ·)
    let b := TireDeg.baselineOf (TireDeg.cleanAccepted
      [(1, 100), (2, 100), (3, 100), (4, 100), (5, 100)])
    b = (sorted.getD 0 0 + sorted.getD 1 0 + sorted.getD 2 0) / 3 ∧
    (∀ x ∈ TireDeg.calculate_lap_degradation
        [(1, 100), (2, 100), (3, 100), (4, 100), (5, 100)] [],
      x.baseline_time = b ∧
      x.degradation_pct = (x.lap_time - b) / b * 100) ∧
    (sorted.getD 0 0 - b) / b * 100 + (sorted.getD 1 0 - b) / b * 100 +
      (sorted.getD 2 0 - b) / b * 100 = 0 ∧
    (sorted.getD 0 0 - b) / b * 100 ≤ 0 :=
  baseline_mean_of_three_fastest
    [(1, 100), (2, 100), (3, 100), (4, 100), (5, 100)] []
    (by norm_num)
    (by norm_num [TireDeg.cleanAccepted, TireDeg.median, absQ,
      List.insertionSort, List.orderedInsert])

/-- C6 counterexample: accepted lap times `100, 100, 103, 110, 112` give
baseline `(100+100+103)/3 = 101`; the lap of 103 s is the third-smallest
accepted time, so it is one of the 3 laps composing the baseline, yet its
degradation percentage is `200/101 ≈ +1.98 %`, far beyond floating
tolerance — refuting "degradation_pct of each of the 3 baseline laps ≤ 0". -/
theorem third_fastest_lap_positive_degradation :
    ((TireDeg.calculate_lap_degradation
        [(1, 100), (2, 100), (3, 103), (4, 110), (5, 112)] []).map
      (fun s => (s.lap_time, s.degradation_pct))).getD 2 (0, 0) =
      (103, 200 / 101) ∧
    (((TireDeg.cleanAccepted
        [(1, 100), (2, 100), (3, 103), (4, 110), (5, 112)]).map
      Prod.snd).insertionSort (· ≤ ·)).getD 2 0 = 103 ∧
    (0 : ℚ) < 200 / 101 := by
  refine ⟨?_, ?_, by norm_num⟩ <;>
    norm_num [TireDeg.calculate_lap_degradation, TireDeg.cleanAccepted,
      TireDeg.median, TireDeg.baselineOf, TireDeg.bookkeep, absQ,
      List.insertionSort, List.orderedInsert]

/-! ### C1 — tire-age / stint bookkeeping invariant -/

/-- Consecutive rows of the bookkeeping loop satisfy the step relation: a
pit-lap row has tire age 1 and increments the stint, any other row adds 1 to
the tire age and keeps the stint. -/
theorem bookkeep_consecutive_step (pit : List ℕ) (b : ℚ) :
    ∀ (l : List (ℕ × ℚ)) (a s idx i : ℕ)
      (h : i + 1 < (TireDeg.bookkeep pit b l a s idx).length),
      TireDeg.SampleStep
        ((TireDeg.bookkeep pit b l a s idx).get ⟨i, Nat.lt_of_succ_lt h⟩)
        ((TireDeg.bookkeep pit b l a s idx).get ⟨i + 1, h⟩) := by
  intro l
  induction l with
  | nil => intro a s idx i h; simp [TireDeg.bookkeep] at h
  | cons p rest ih =>
    intro a s idx i h
    obtain ⟨ln, lt⟩ := p
    match i with
    | 0 =>
      match rest, h with
      | (ln2, lt2) :: rest2, h =>
        simp only [TireDeg.bookkeep, List.get_cons_zero, List.get_cons_succ]
        by_cases hp2 : ln2 ∈ pit
        · simp [TireDeg.SampleStep, TireDeg.bookkeep, hp2]
        · simp [TireDeg.SampleStep, TireDeg.bookkeep, hp2]
    | j + 1 =>
      have h' : j + 1 < (TireDeg.bookkeep pit b rest
          (if decide (ln ∈ pit) then 1 else a + 1)
          (if decide (ln ∈ pit) then s + 1 else s) (idx + 1)).length := by
        rw [TireDeg.bookkeep] at h
        simpa using h
      have hstep := ih (if decide (ln ∈ pit) then 1 else a + 1)
        (if decide (ln ∈ pit) then s + 1 else s) (idx + 1) j h'
      simp only [TireDeg.bookkeep, List.get_cons_succ]
      exact hstep

/-- The first row emitted from the initial state (tire age 0) has tire age 1;
its stint number is the incremented one exactly when it is a pit-lap row. -/
theorem bookkeep_head_age_one (pit : List ℕ) (b : ℚ) :
    ∀ (l : List (ℕ × ℚ)) (s idx : ℕ)
      (h : 0 < (TireDeg.bookkeep pit b l 0 s idx).length),
      ((TireDeg.bookkeep pit b l 0 s idx).get ⟨0, h⟩).tire_age = 1 ∧
      ((TireDeg.bookkeep pit b l 0 s idx).get ⟨0, h⟩).stint_number =
        (if ((TireDeg.bookkeep pit b l 0 s idx).get ⟨0, h⟩).is_pit_lap
         then s + 1 else s) := by
  intro l s idx h
  match l, h with
  | (ln, lt) :: rest, _h =>
    by_cases hp : ln ∈ pit
    · simp [TireDeg.bookkeep, hp]
    · simp [TireDeg.bookkeep, hp]

/-- C1 (amended): in the rows produced by `calculate_lap_degradation`, the
reset of tire age to exactly 1 — with stint number incremented by exactly 1 —
happens *on* the row flagged `is_pit_lap`, not on the row following it; on a
non-pit row the tire age grows by exactly 1 and the stint number is
unchanged, so stint numbers are monotonically non-decreasing across the
sequence.  The first row always has tire age 1 (the stint starts at 2 when
that row is itself a pit lap, else 1). -/
theorem tire_age_stint_step_invariant (pairs : List (ℕ × ℚ))
    (pit : List ℕ) :
    (∀ (h : 0 < (TireDeg.calculate_lap_degradation pairs pit).length),
      ((TireDeg.calculate_lap_degradation pairs pit).getD 0
        default).tire_age = 1 ∧
      ((TireDeg.calculate_lap_degradation pairs pit).getD 0
        default).stint_number =
        (if ((TireDeg.calculate_lap_degradation pairs pit).getD 0
          default).is_pit_lap then 2 else 1)) ∧
    (∀ (i : ℕ)
      (h : i + 1 < (TireDeg.calculate_lap_degradation pairs pit).length),
      TireDeg.SampleStep
        ((TireDeg.calculate_lap_degradation pairs pit).getD i default)
        ((TireDeg.calculate_lap_degradation pairs pit).getD (i + 1)
          default)) := by
  have hcase : TireDeg.calculate_lap_degradation pairs pit = [] ∨
      TireDeg.calculate_lap_degradation pairs pit =
        TireDeg.bookkeep pit
          (TireDeg.baselineOf (TireDeg.cleanAccepted pairs))
          (TireDeg.cleanAccepted pairs) 0 1 0 := by
    unfold TireDeg.calculate_lap_degradation
    dsimp only
    split_ifs with h1 h2
    · exact Or.inl rfl
    · exact Or.inl rfl
    · exact Or.inr rfl
  rcases hcase with heq | heq
  · rw [heq]
    exact ⟨fun h => by simp at h, fun i h => by simp at h⟩
  · rw [heq]
    constructor
    · intro h
      rw [List.getD_eq_getElem _ _ h]
      exact bookkeep_head_age_one pit _ _ 1 0 h
    · intro i h
      rw [List.getD_eq_getElem _ _ (Nat.lt_of_succ_lt h),
        List.getD_eq_getElem _ _ h]
      exact bookkeep_consecutive_step pit _ _ 0 1 0 i h

/-- C1 witness: six 100-second laps with a ground-truth pit stop at lap 3 —
the step relation holds between the pit-lap row (index 2) and its
successor. -/
theorem tire_age_stint_step_invariant_witness :
    TireDeg.SampleStep
      ((TireDeg.calculate_lap_degradation
          [(1, 100), (2, 100), (3, 100), (4, 100), (5, 100), (6, 100)]
          [3]).getD 2 default)
      ((TireDeg.calculate_lap_degradation
          [(1, 100), (2, 100), (3, 100), (4, 100), (5, 100), (6, 100)]
          [3]).getD 3 default) := by
  have hlen : (TireDeg.calculate_lap_degradation
      [(1, 100), (2, 100), (3, 100), (4, 100), (5, 100), (6, 100)]
      [3]).length = 6 := by
    norm_num [TireDeg.calculate_lap_degradation, TireDeg.cleanAccepted,
      TireDeg.median, TireDeg.baselineOf, TireDeg.bookkeep, absQ,
      List.insertionSort, List.orderedInsert]
  exact (tire_age_stint_step_invariant _ _).2 2 (by rw [hlen]; omega)

/-- C1 counterexample: with a pit stop at lap 3 of six identical laps, the
row *on* the pit lap (index 2) carries tire age 1, and the row immediately
following it (index 3) carries tire age 2 — the claim's "resets to exactly 1
on the lap immediately following a pit lap" fails. -/
theorem tire_age_resets_on_pit_lap_not_after :
    ¬ (∀ (i : ℕ)
        (_h : i + 1 < (TireDeg.calculate_lap_degradation
          [(1, 100), (2, 100), (3, 100), (4, 100), (5, 100), (6, 100)]
          [3]).length),
        ((TireDeg.calculate_lap_degradation
          [(1, 100), (2, 100), (3, 100), (4, 100), (5, 100), (6, 100)]
          [3]).getD i default).is_pit_lap = true →
        ((TireDeg.calculate_lap_degradation
          [(1, 100), (2, 100), (3, 100), (4, 100), (5, 100), (6, 100)]
          [3]).getD (i + 1) default).tire_age = 1) := by
  intro hclaim
  have hmap : (TireDeg.calculate_lap_degradation
      [(1, 100), (2, 100), (3, 100), (4, 100), (5, 100), (6, 100)]
      [3]).map (fun s => (s.is_pit_lap, s.tire_age)) =
      [(false, 1), (false, 2), (true, 1), (false, 2), (false, 3),
       (false, 4)] := by
    norm_num [TireDeg.calculate_lap_degradation, TireDeg.cleanAccepted,
      TireDeg.median, TireDeg.baselineOf, TireDeg.bookkeep, absQ,
      List.insertionSort, List.orderedInsert]
  have hlen : (TireDeg.calculate_lap_degradation
      [(1, 100), (2, 100), (3, 100), (4, 100), (5, 100), (6, 100)]
      [3]).length = 6 := by
    have h := congrArg List.length hmap
    simpa using h
  have h2 : ((TireDeg.calculate_lap_degradation
      [(1, 100), (2, 100), (3, 100), (4, 100), (5, 100), (6, 100)]
      [3]).getD 2 default).is_pit_lap = true := by
    have h := congrArg (fun l => l.getD 2 (false, 0)) hmap
    simp only at h
    rw [List.getD_eq_getElem _ _ (by simp [hlen]), List.getElem_map] at h
    rw [List.getD_eq_getElem _ _ (by omega)]
    exact congrArg Prod.fst h
  have h3 : ((TireDeg.calculate_lap_degradation
      [(1, 100), (2, 100), (3, 100), (4, 100), (5, 100), (6, 100)]
      [3]).getD 3 default).tire_age = 2 := by
    have h := congrArg (fun l => l.getD 3 (false, 0)) hmap
    simp only at h
    rw [List.getD_eq_getElem _ _ (by simp [hlen]), List.getElem_map] at h
    rw [List.getD_eq_getElem _ _ (by omega)]
    exact congrArg Prod.snd h
  have hone := hclaim 2 (by omega) h2
  rw [hone] at h3
  exact absurd h3 (by decide)

/-! ### C10 — race statistics exclude pit laps -/

/-- Folding `min` over a list starting from `t` yields a lower bound of `t`
and of every element, and is attained by `t` or by an element. -/
theorem foldl_min_spec : ∀ (ts : List ℚ) (t : ℚ),
    (ts.foldl min t ≤ t ∧ ∀ x ∈ ts, ts.foldl min t ≤ x) ∧
    (ts.foldl min t = t ∨ ts.foldl min t ∈ ts) := by
  intro ts
  induction ts with
  | nil => intro t; simp
  | cons u us ih =>
    intro t
    simp only [List.foldl_cons]
    obtain ⟨⟨hle, hall⟩, hmem⟩ := ih (min t u)
    refine ⟨⟨le_trans hle (min_le_left _ _), ?_⟩, ?_⟩
    · intro x hx
      rcases List.mem_cons.mp hx with rfl | hx'
      · exact le_trans hle (min_le_right _ _)
      · exact hall x hx'
    · rcases hmem with heq | hmem'
      · rcases le_total t u with htu | hut
        · left; rw [heq]; exact min_eq_left htu
        · right; rw [heq]
          exact List.mem_cons.mpr (Or.inl (min_eq_right hut))
      · right; exact List.mem_cons.mpr (Or.inr hmem')

/-- Folding `max` over a list starting from `t` yields an upper bound of `t`
and of every element, and is attained by `t` or by an element. -/
theorem foldl_max_spec : ∀ (ts : List ℚ) (t : ℚ),
    (t ≤ ts.foldl max t ∧ ∀ x ∈ ts, x ≤ ts.foldl max t) ∧
    (ts.foldl max t = t ∨ ts.foldl max t ∈ ts) := by
  intro ts
  induction ts with
  | nil => intro t; simp
  | cons u us ih =>
    intro t
    simp only [List.foldl_cons]
    obtain ⟨⟨hle, hall⟩, hmem⟩ := ih (max t u)
    refine ⟨⟨le_trans (le_max_left _ _) hle, ?_⟩, ?_⟩
    · intro x hx
      rcases List.mem_cons.mp hx with rfl | hx'
      · exact le_trans (le_max_right _ _) hle
      · exact hall x hx'
    · rcases hmem with heq | hmem'
      · rcases le_total u t with hut | htu
        · left; rw [heq]; exact max_eq_left hut
        · right; rw [heq]
          exact List.mem_cons.mpr (Or.inl (max_eq_right htu))
      · right; exact List.mem_cons.mpr (Or.inr hmem')

/-- One race lap changes cumulative time by the lap time plus exactly the pit
loss of that lap (zero on non-pit laps); the recorded lap time never carries
the pit loss. -/
theorem race_step_cumulative (sim : RaceSim.RaceSimulator)
    (degFn : ℕ → RaceSim.TireCharacteristics → ℚ) (traffic : ℕ → ℚ)
    (strategy : RaceSim.RaceStrategy) (st : RaceSim.SimState) (lap : ℕ) :
    (RaceSim.race_step sim degFn traffic strategy st lap).cumulative_time -
      (((RaceSim.race_step sim degFn traffic strategy st
        lap).lap_results).map (·.lap_time)).sum =
    st.cumulative_time - (st.lap_results.map (·.lap_time)).sum +
      RaceSim.lapPitLoss strategy lap := by
  cases hfind : strategy.pit_stops.find? (fun ps => ps.lap == lap) with
  | none =>
    simp only [RaceSim.race_step, RaceSim.lapPitLoss, hfind,
      RaceSim.race_step.race_lap, List.map_append, List.sum_append,
      List.map_cons, List.map_nil, List.sum_cons, List.sum_nil]
    ring
  | some ps =>
    simp only [RaceSim.race_step, RaceSim.lapPitLoss, hfind,
      RaceSim.race_step.race_lap, List.map_append, List.sum_append,
      List.map_cons, List.map_nil, List.sum_cons, List.sum_nil]
    ring

/-- Over any sequence of laps, cumulative time exceeds the sum of recorded
lap times by exactly the pit losses charged. -/
theorem race_foldl_cumulative (sim : RaceSim.RaceSimulator)
    (degFn : ℕ → RaceSim.TireCharacteristics → ℚ) (traffic : ℕ → ℚ)
    (strategy : RaceSim.RaceStrategy) :
    ∀ (laps : List ℕ) (st : RaceSim.SimState),
    (laps.foldl (RaceSim.race_step sim degFn traffic strategy)
        st).cumulative_time -
      (((laps.foldl (RaceSim.race_step sim degFn traffic strategy)
        st).lap_results).map (·.lap_time)).sum =
    st.cumulative_time - (st.lap_results.map (·.lap_time)).sum +
      (laps.map (RaceSim.lapPitLoss strategy)).sum := by
  intro laps
  induction laps with
  | nil => intro st; simp
  | cons lap rest ih =>
    intro st
    simp only [List.foldl_cons, List.map_cons, List.sum_cons]
    rw [ih]
    rw [race_step_cumulative]
    ring

/-- C10: for every simulator, degradation function, traffic draw and strategy
whose race has at least one non-pit lap, the returned statistics are computed
only over the laps with `is_pit_lap = false` — `average_lap_time` is their
mean, `fastest_lap` / `slowest_lap` are attained non-pit lap times bounding
all non-pit lap times — and `total_time` equals the sum of all recorded lap
times plus the pit losses, which are charged to cumulative time only and
never to a lap's recorded `lap_time`. -/
theorem race_stats_exclude_pit_laps (sim : RaceSim.RaceSimulator)
    (degFn : ℕ → RaceSim.TireCharacteristics → ℚ) (traffic : ℕ → ℚ)
    (strategy : RaceSim.RaceStrategy) (res : RaceSim.RaceSimulationResult)
    (h : RaceSim.simulate_race sim degFn traffic strategy = some res) :
    let nonPit := (res.lap_results.filter fun lr =>
      !lr.is_pit_lap).map (·.lap_time)
    res.average_lap_time = nonPit.sum / (nonPit.length : ℚ) ∧
    res.fastest_lap ∈ nonPit ∧
    res.slowest_lap ∈ nonPit ∧
    (∀ t ∈ nonPit, res.fastest_lap ≤ t ∧ t ≤ res.slowest_lap) ∧
    res.total_time = (res.lap_results.map (·.lap_time)).sum +
      RaceSim.pitLossTotal strategy sim.total_race_laps := by
  intro nonPit
  simp only [RaceSim.simulate_race] at h
  set final := (List.range' 1 sim.total_race_laps).foldl
    (RaceSim.race_step sim degFn traffic strategy)
    { cumulative_time := 0, current_compound := strategy.starting_compound,
      tire_age := 0, fuel_load := (sim.total_race_laps : ℤ),
      tire_usage := {}, pit_stop_count := 0, lap_results := [] } with hfinal
  cases hmatch : (final.lap_results.filter fun lr =>
      !lr.is_pit_lap).map (·.lap_time) with
  | nil => rw [hmatch] at h; exact absurd h (by simp)
  | cons t ts =>
    rw [hmatch] at h
    simp only [Option.some.injEq] at h
    subst h
    have hres : nonPit = t :: ts := hmatch
    have htotal : final.cumulative_time =
        (final.lap_results.map (·.lap_time)).sum +
        RaceSim.pitLossTotal strategy sim.total_race_laps := by
      have hinv := race_foldl_cumulative sim degFn traffic strategy
        (List.range' 1 sim.total_race_laps)
        { cumulative_time := 0,
          current_compound := strategy.starting_compound,
          tire_age := 0, fuel_load := (sim.total_race_laps : ℤ),
          tire_usage := {}, pit_stop_count := 0, lap_results := [] }
      rw [← hfinal] at hinv
      simp only [List.map_nil, List.sum_nil] at hinv
      rw [RaceSim.pitLossTotal]
      linarith [hinv]
    refine ⟨?_, ?_, ?_, ?_, htotal⟩
    · rw [hres]
    · show ts.foldl min t ∈ nonPit
      rw [hres]
      rcases (foldl_min_spec ts t).2 with heq | hmem
      · rw [heq]; exact List.mem_cons_self _ _
      · exact List.mem_cons.mpr (Or.inr hmem)
    · show ts.foldl max t ∈ nonPit
      rw [hres]
      rcases (foldl_max_spec ts t).2 with heq | hmem
      · rw [heq]; exact List.mem_cons_self _ _
      · exact List.mem_cons.mpr (Or.inr hmem)
    · intro x hx
      rw [hres] at hx
      rcases List.mem_cons.mp hx with rfl | hx'
      · exact ⟨(foldl_min_spec ts x).1.1, (foldl_max_spec ts x).1.1⟩
      · exact ⟨(foldl_min_spec ts t).1.2 x hx',
          (foldl_max_spec ts t).1.2 x hx'⟩

/-- C10 witness: a one-lap race (baseline 100 s, medium compound, no stops,
linear degradation, zero traffic) whose result is `oneLapExample`. -/
theorem race_stats_exclude_pit_laps_witness :
    let nonPit := (RaceSim.oneLapExample.lap_results.filter fun lr =>
      !lr.is_pit_lap).map (·.lap_time)
    RaceSim.oneLapExample.average_lap_time =
      nonPit.sum / (nonPit.length : ℚ) ∧
    RaceSim.oneLapExample.fastest_lap ∈ nonPit ∧
    RaceSim.oneLapExample.slowest_lap ∈ nonPit ∧
    (∀ t ∈ nonPit, RaceSim.oneLapExample.fastest_lap ≤ t ∧
      t ≤ RaceSim.oneLapExample.slowest_lap) ∧
    RaceSim.oneLapExample.total_time =
      (RaceSim.oneLapExample.lap_results.map (·.lap_time)).sum +
      RaceSim.pitLossTotal RaceSim.strategyNoStop 1 :=
  race_stats_exclude_pit_laps ⟨100, 1, 3 / 100⟩ RaceSim.linearDegFn
    (fun _ => 0) RaceSim.strategyNoStop RaceSim.oneLapExample
    (by norm_num [RaceSim.simulate_race, RaceSim.race_step,
      RaceSim.race_step.race_lap, RaceSim.calculate_lap_time,
      RaceSim.generate_lap_notes, RaceSim.get_compound_characteristics,
      RaceSim.TireCompound.value, RaceSim.strategyNoStop, RaceSim.linearDegFn,
      RaceSim.oneLapExample, RaceSim.TireUsage.bump, List.range',
      RaceSim.RaceSimulationResult.mk.injEq, RaceSim.LapResult.mk.injEq] <;>
      decide)
